import Mathlib

/-!
# Verification of the multistream dispatch and process-supervision engine

Shallow embedding of `src/streaming-worker.js` (the streaming worker of the
Automasterpk/stream repository) and proofs of the specification claims about
it.  Pure functions of the worker become Lean functions; the stateful parts
(the `activeStreams` registry, the spawned relay processes, the Postgres
status rows, the open log sinks) become explicit state passing over a
`WorkerState` record.  JavaScript `Map` operations are modelled by an
association list with JavaScript `Map` semantics (set replaces in place,
delete removes the entry, at most one entry per key once built by `set`).
-/

namespace StreamWorker

/-! ## Platforms and the Command Builder (`createFFmpegCommand`) -/

/-- One relay target, mirroring the `platform` records consumed by
`createFFmpegCommand`: `platform.type === 'rtmp'` carries `server` and
`streamKey`, `platform.type === 'custom'` carries `url`, and any other
`type` value is unsupported (the JS code maps it to `null`). -/
inductive Platform where
  | rtmp (server streamKey : String)
  | custom (url : String)
  | unsupported
deriving DecidableEq, Repr

/-- The per-platform output URL of the `platforms.map(...)` step in
`createFFmpegCommand`: `rtmp` yields the template string
`rtmp://server/streamKey`, `custom` yields `platform.url`, and any other
type yields `null` (here `none`). -/
def outputFor : Platform → Option String
  | .rtmp server streamKey => some ("rtmp://" ++ server ++ "/" ++ streamKey)
  | .custom url => some url
  | .unsupported => none

/-- The `outputs` array of `createFFmpegCommand`: map each platform to its
URL, then `.filter(Boolean)`.  In JavaScript `filter(Boolean)` removes both
`null` entries (unsupported types) and empty strings (a `custom` platform
whose `url` is `""`); for strings those are the only falsy values. -/
def resolvedOutputs (platforms : List Platform) : List String :=
  (platforms.filterMap outputFor).filter (fun o => !(o == ""))

/-- `createFFmpegCommand(videoPath, platforms)`: one output gives a single
`-f flv` invocation, two or more give a tee-muxer invocation with one
`[f=flv]` leg per output, and zero outputs throw
`Error('No valid output platforms provided')` (modelled as `Except.error`). -/
def createFFmpegCommand (videoPath : String) (platforms : List Platform) :
    Except String String :=
  match resolvedOutputs platforms with
  | [o] =>
      Except.ok ("-re -i \"" ++ videoPath ++ "\" -c:v copy -c:a aac -f flv \"" ++ o ++ "\"")
  | o1 :: o2 :: rest =>
      Except.ok ("-re -i \"" ++ videoPath ++ "\" -c:v copy -c:a aac -f tee \"" ++
        String.intercalate "|" ((o1 :: o2 :: rest).map (fun o => "[f=flv]" ++ o)) ++ "\"")
  | [] => Except.error "No valid output platforms provided"

/-- A platform is supported when the mapping step yields a URL rather than
`null`: the `rtmp` and `custom` types. -/
def supportedPlatform (p : Platform) : Bool :=
  (outputFor p).isSome

/-! ## Worker state: registry, processes, status store, log sinks

The worker keeps `const activeStreams = new Map()` keyed by stream id, a set
of spawned ffmpeg child processes, per-session log sinks, and writes status
rows to Postgres.  Stream ids are modelled as `Nat`, timestamps as `Nat`
(a logical clock standing for `new Date()`), process handles as `Nat` pids
drawn from a fresh counter. -/

/-- Stream status literals written to the `streams` table. -/
inductive StreamStatus where
  | scheduled
  | active
  | completed
  | failed
  | stopped
deriving DecidableEq, Repr

/-- The durable columns of one `streams` row that the worker touches:
`status`, `started_at`, `ended_at`, `error`, `log_file`. -/
structure StreamRow where
  status : StreamStatus
  started_at : Option Nat := none
  ended_at : Option Nat := none
  error : Option String := none
  log_file : Option String := none
deriving DecidableEq, Repr

/-- The in-memory `ActiveSession` value stored in `activeStreams`:
process handle, log filename, log sink, start time and the platform set. -/
structure Session where
  pid : Nat
  logFilename : String
  startTime : Nat
  platforms : List Platform
deriving DecidableEq, Repr

/-- One spawned relay process: its pid, the stream id it was spawned for
and whether it is still running. -/
structure Proc where
  pid : Nat
  streamId : Nat
  alive : Bool
deriving DecidableEq, Repr

/-- `Map.prototype.get`. -/
def mapGet : List (Nat × Session) → Nat → Option Session
  | [], _ => none
  | (k, v) :: rest, i => if k = i then some v else mapGet rest i

/-- `Map.prototype.set`: replace in place when the key is present,
append otherwise (JavaScript `Map` insertion-order semantics). -/
def mapSet : List (Nat × Session) → Nat → Session → List (Nat × Session)
  | [], i, s => [(i, s)]
  | (k, v) :: rest, i, s =>
      if k = i then (i, s) :: rest else (k, v) :: mapSet rest i s

/-- `Map.prototype.delete`: remove the entry for the key when present
(a `Map` holds at most one entry per key), no-op otherwise. -/
def mapDelete : List (Nat × Session) → Nat → List (Nat × Session)
  | [], _ => []
  | (k, v) :: rest, i => if k = i then rest else (k, v) :: mapDelete rest i

/-- Point update of the status store. -/
def dbSet (db : Nat → StreamRow) (i : Nat) (row : StreamRow) : Nat → StreamRow :=
  fun j => if j = i then row else db j

/-- The whole mutable state of the worker process: the `activeStreams`
registry, every child process spawned so far, the fresh-pid counter, the
open log sinks (by filename), the status store and the clock. -/
structure WorkerState where
  activeStreams : List (Nat × Session)
  procs : List Proc
  nextPid : Nat
  openLogs : List String
  db : Nat → StreamRow
  now : Nat

/-- `logDir` default (`process.env.LOG_DIR || './logs'`). -/
def logDir : String := "./logs"

/-- `uploadDir` default (`process.env.UPLOAD_DIR || './uploads'`). -/
def uploadDir : String := "./uploads"

/-- `generateLogFilename(streamId)`: a log path built from the log
directory, the stream id and the current timestamp. -/
def generateLogFilename (streamId : Nat) (now : Nat) : String :=
  logDir ++ "/stream-" ++ toString streamId ++ "-" ++ toString now ++ ".log"

/-! ## Operations of the Process Supervisor -/

/-- `startStream(streamId, videoPath, platforms)`.  The body is one `try`
block: open the log sink, build the ffmpeg command, spawn the process,
register the session in `activeStreams` and persist status `'active'`;
the `catch` persists status `'failed'` with the exception text and returns
`false`.  `spawnErr = some msg` models `spawn` itself throwing with message
`msg`; `none` models a successful spawn.  Note the source performs no
already-running check before any of this. -/
def startStream (st : WorkerState) (streamId : Nat) (videoPath : String)
    (platforms : List Platform) (spawnErr : Option String) : WorkerState × Bool :=
  match createFFmpegCommand videoPath platforms with
  | Except.error msg =>
      -- createFFmpegCommand threw: the sink is open (never closed by the
      -- catch block), no process was spawned, no session registered.
      ({ st with
          openLogs := generateLogFilename streamId st.now :: st.openLogs,
          db := dbSet st.db streamId
            { st.db streamId with status := StreamStatus.failed, error := some msg } },
        false)
  | Except.ok _ =>
      match spawnErr with
      | some msg =>
          ({ st with
              openLogs := generateLogFilename streamId st.now :: st.openLogs,
              db := dbSet st.db streamId
                { st.db streamId with status := StreamStatus.failed, error := some msg } },
            false)
      | none =>
          ({ st with
              openLogs := generateLogFilename streamId st.now :: st.openLogs,
              procs := st.procs ++ [⟨st.nextPid, streamId, true⟩],
              nextPid := st.nextPid + 1,
              activeStreams := mapSet st.activeStreams streamId
                ⟨st.nextPid, generateLogFilename streamId st.now, st.now, platforms⟩,
              db := dbSet st.db streamId
                { st.db streamId with
                    status := StreamStatus.active,
                    started_at := some st.now,
                    log_file := some (generateLogFilename streamId st.now) } },
            true)

/-- `process.kill('SIGTERM')` on the session's process: the graceful
termination signal, modelled as the process ending. -/
def killProc (procs : List Proc) (pid : Nat) : List Proc :=
  procs.map (fun p => if p.pid = pid then { p with alive := false } else p)

/-- `stopStream(streamId)`: when a session is registered, signal the
process, close the log sink, persist status `'stopped'` with `ended_at`,
and delete the registry entry, returning `true`; otherwise return `false`
without touching any state. -/
def stopStream (st : WorkerState) (streamId : Nat) : WorkerState × Bool :=
  match mapGet st.activeStreams streamId with
  | some sess =>
      ({ st with
          procs := killProc st.procs sess.pid,
          openLogs := st.openLogs.erase sess.logFilename,
          db := dbSet st.db streamId
            { st.db streamId with
                status := StreamStatus.stopped, ended_at := some st.now },
          activeStreams := mapDelete st.activeStreams streamId },
        true)
  | none => (st, false)

/-- The `ffmpegProcess.on('exit', ...)` handler of `startStream`.  It runs
when a supervised process ends; `streamId`, `pid` and `logFilename` are the
values captured by the closure, `code` is the exit code (`none` models exit
by signal, where Node passes `null`).  It closes the captured log sink,
persists `'completed'` for a clean exit and `'failed'` otherwise together
with `ended_at`, and deletes the registry entry (`Map.delete` of an absent
key is a no-op). -/
def onExit (st : WorkerState) (streamId : Nat) (pid : Nat) (logFilename : String)
    (code : Option Int) : WorkerState :=
  { st with
      procs := st.procs.map (fun p => if p.pid = pid then { p with alive := false } else p),
      openLogs := st.openLogs.erase logFilename,
      db := dbSet st.db streamId
        { st.db streamId with
            status := if code = some 0 then StreamStatus.completed else StreamStatus.failed,
            ended_at := some st.now },
      activeStreams := mapDelete st.activeStreams streamId }

/-! ## Scheduler Trigger (`processScheduledStreams`) -/

/-- One row of the due-jobs query: id, the `video_path` column (relative to
the upload directory) and the aggregated platform rows. -/
structure ScheduledRow where
  id : Nat
  video_path : String
  platforms : List Platform
deriving DecidableEq, Repr

/-- The body of the per-stream loop of `processScheduledStreams`: join the
upload directory onto `video_path`; when the file is missing persist status
`'failed'` with the fixed error text `'Video file not found'` and `continue`
without starting anything; otherwise call `startStream`.  `fileExists`
models `fs.existsSync`; `spawnErr` is the per-job spawn outcome of the
environment (`spawnErr row.id = some msg` models `spawn` throwing with
message `msg` when this row is dispatched, `none` a successful spawn). -/
def processOne (spawnErr : Nat → Option String) (fileExists : String → Bool)
    (st : WorkerState) (row : ScheduledRow) : WorkerState :=
  if fileExists (uploadDir ++ "/" ++ row.video_path) then
    (startStream st row.id (uploadDir ++ "/" ++ row.video_path) row.platforms
      (spawnErr row.id)).1
  else
    { st with
        db := dbSet st.db row.id
          { st.db row.id with
              status := StreamStatus.failed, error := some "Video file not found" } }

/-- `processScheduledStreams`: iterate the due rows in order, handling each
with `processOne`.  `rows` is the result set of the due-jobs query
(status `'scheduled'`, `scheduled_at <= now`, `plan_active`). -/
def processScheduledStreams (st : WorkerState) (rows : List ScheduledRow)
    (spawnErr : Nat → Option String) (fileExists : String → Bool) : WorkerState :=
  rows.foldl (processOne spawnErr fileExists) st

/-! ## Graceful shutdown (`process.on('SIGTERM')`) -/

/-- Observable shutdown events: one stop completing for a stream id, and
the engine process exiting (`process.exit(0)`). -/
inductive ShutdownEvent where
  | stopDone (streamId : Nat)
  | engineExit
deriving DecidableEq, Repr

/-- The `for (const [streamId] of activeStreams) await stopStream(streamId)`
loop of the SIGTERM handler, instrumented with the event it emits as each
awaited stop completes. -/
def shutdownLoop : WorkerState → List Nat → WorkerState × List ShutdownEvent
  | st, [] => (st, [])
  | st, i :: rest =>
      ((shutdownLoop (stopStream st i).1 rest).1,
        ShutdownEvent.stopDone i :: (shutdownLoop (stopStream st i).1 rest).2)

/-- The whole SIGTERM handler: await a stop for every registered session,
then exit.  The `engineExit` event is emitted strictly after every stop has
completed, mirroring that `process.exit(0)` runs only after the loop. -/
def onSigterm (st : WorkerState) : WorkerState × List ShutdownEvent :=
  ((shutdownLoop st (st.activeStreams.map Prod.fst)).1,
    (shutdownLoop st (st.activeStreams.map Prod.fst)).2 ++ [ShutdownEvent.engineExit])

/-- The registry-uniqueness invariant: the keys of `activeStreams` are
pairwise distinct, i.e. at most one `ActiveSession` per stream id. -/
def registryUnique (st : WorkerState) : Prop :=
  (st.activeStreams.map Prod.fst).Nodup

/-- Number of registered sessions for one stream id. -/
def sessionCount (st : WorkerState) (streamId : Nat) : Nat :=
  (st.activeStreams.filter (fun p => p.1 == streamId)).length

/-- Number of live relay processes for one stream id. -/
def liveProcCount (st : WorkerState) (streamId : Nat) : Nat :=
  (st.procs.filter (fun p => p.streamId == streamId && p.alive)).length

/-! ## Concrete states used to exercise the model -/

/-- The worker right after boot: empty registry, no processes, every row
still `'scheduled'`. -/
def initState : WorkerState :=
  ⟨[], [], 0, [], fun _ => { status := StreamStatus.scheduled }, 0⟩

/-- A single valid relay platform. -/
def demoPlatforms : List Platform := [Platform.rtmp "live.example" "key1"]

/-- A source path under the upload directory. -/
def demoPath : String := "./uploads/demo.mp4"

/-- The single-output command built for `demoPath` and `demoPlatforms`. -/
def demoCmd : String :=
  "-re -i \"./uploads/demo.mp4\" -c:v copy -c:a aac -f flv \"rtmp://live.example/key1\""

/-- State after one successful start of job 1. -/
def st1 : WorkerState := (startStream initState 1 demoPath demoPlatforms none).1

/-- A second start request for job 1 arriving while job 1 is active. -/
def doubleStart : WorkerState × Bool := startStream st1 1 demoPath demoPlatforms none

/-- A due row whose source file is missing from storage. -/
def missingRow : ScheduledRow := ⟨7, "gone.mp4", [Platform.rtmp "a" "b"]⟩

/-- A due row whose source file exists. -/
def okRow : ScheduledRow := ⟨8, "here.mp4", [Platform.rtmp "c" "d"]⟩

/-- One scheduler tick over the missing-file row followed by a good row,
with only the good row's file present in storage and no spawn failures. -/
def tickMissing : WorkerState :=
  processScheduledStreams initState [missingRow, okRow] (fun _ => none)
    (fun p => p == uploadDir ++ "/" ++ "here.mp4")

/-- A due row whose source file exists but whose dispatch will fail at the
spawn step. -/
def spawnFailRow : ScheduledRow := ⟨9, "boom.mp4", [Platform.rtmp "e" "f"]⟩

/-- The command built for `spawnFailRow` (its build succeeds; only the
spawn fails). -/
def boomCmd : String :=
  "-re -i \"./uploads/boom.mp4\" -c:v copy -c:a aac -f flv \"rtmp://e/f\""

/-- Spawn outcome for the three-row tick: only job 9's spawn throws. -/
def tick3se : Nat → Option String :=
  fun i => if i = 9 then some "spawn ENOENT" else none

/-- Storage for the three-row tick: every file exists except `gone.mp4`. -/
def tick3fe : String → Bool :=
  fun p => !(p == uploadDir ++ "/" ++ "gone.mp4")

/-- One scheduler tick over a missing-file row, then a row whose dispatch
fails at the spawn step, then a good row. -/
def tick3 : WorkerState :=
  processScheduledStreams initState [missingRow, spawnFailRow, okRow] tick3se tick3fe

/-- Session of job 1 in the two-job scenario. -/
def sessA : Session := ⟨0, "a.log", 0, demoPlatforms⟩

/-- Session of job 2 in the two-job scenario. -/
def sessB : Session := ⟨1, "b.log", 0, demoPlatforms⟩

/-- A worker with two active sessions (jobs 1 and 2), as in the shutdown
scenario of the spec. -/
def twoActive : WorkerState :=
  ⟨[(1, sessA), (2, sessB)],
    [⟨0, 1, true⟩, ⟨1, 2, true⟩], 2, ["a.log", "b.log"],
    fun _ => { status := StreamStatus.active }, 5⟩

/-! ## Small facts about the Command Builder -/

theorem rtmp_output_ne_empty (s k : String) :
    ("rtmp://" ++ s ++ "/" ++ k) ≠ "" := by
  intro h
  have hlen := congrArg String.length h
  simp [String.length_append] at hlen
  exact (by decide : ¬ "rtmp://".length = 0) hlen.1.1.1

theorem resolvedOutputs_nil : resolvedOutputs [] = [] := rfl

theorem resolvedOutputs_rtmp_cons (s k : String) (ps : List Platform) :
    resolvedOutputs (Platform.rtmp s k :: ps) =
      ("rtmp://" ++ s ++ "/" ++ k) :: resolvedOutputs ps := by
  simp [resolvedOutputs, outputFor, List.filterMap_cons, List.filter_cons,
    rtmp_output_ne_empty s k]

theorem resolvedOutputs_custom_cons (u : String) (ps : List Platform) :
    resolvedOutputs (Platform.custom u :: ps) =
      (if u = "" then resolvedOutputs ps else u :: resolvedOutputs ps) := by
  by_cases hu : u = "" <;>
    simp [resolvedOutputs, outputFor, List.filterMap_cons, List.filter_cons, hu]

theorem resolvedOutputs_custom_empty_cons (ps : List Platform) :
    resolvedOutputs (Platform.custom "" :: ps) = resolvedOutputs ps := by
  simp [resolvedOutputs_custom_cons]

theorem resolvedOutputs_unsupported_cons (ps : List Platform) :
    resolvedOutputs (Platform.unsupported :: ps) = resolvedOutputs ps := by
  simp [resolvedOutputs, outputFor, List.filterMap_cons]

theorem resolvedOutputs_filter_supported (ps : List Platform) :
    resolvedOutputs (ps.filter supportedPlatform) = resolvedOutputs ps := by
  induction ps with
  | nil => rfl
  | cons p rest ih =>
      cases p with
      | rtmp s k =>
          simp [List.filter_cons, supportedPlatform, outputFor,
            resolvedOutputs_rtmp_cons, ih]
      | custom u =>
          simp [List.filter_cons, supportedPlatform, outputFor,
            resolvedOutputs_custom_cons, ih]
      | unsupported =>
          simp [List.filter_cons, supportedPlatform, outputFor,
            resolvedOutputs_unsupported_cons, ih]

/-! ## Registry (`Map`) lemmas -/

theorem mapGet_mapSet_self (l : List (Nat × Session)) (k : Nat) (v : Session) :
    mapGet (mapSet l k v) k = some v := by
  induction l with
  | nil => simp [mapSet, mapGet]
  | cons p rest ih =>
      obtain ⟨k', v'⟩ := p
      by_cases h : k' = k
      · subst h
        simp [mapSet, mapGet]
      · simp [mapSet, mapGet, h, ih]

theorem mapGet_mapSet_ne (l : List (Nat × Session)) (k : Nat) (v : Session)
    (j : Nat) (h : j ≠ k) : mapGet (mapSet l k v) j = mapGet l j := by
  induction l with
  | nil => simp [mapSet, mapGet, Ne.symm h]
  | cons p rest ih =>
      obtain ⟨k', v'⟩ := p
      by_cases hk : k' = k
      · subst hk
        simp [mapSet, mapGet, Ne.symm h]
      · simp [mapSet, mapGet, hk, ih]

theorem mapGet_eq_none_of_not_mem (l : List (Nat × Session)) (k : Nat)
    (h : k ∉ l.map Prod.fst) : mapGet l k = none := by
  induction l with
  | nil => rfl
  | cons p rest ih =>
      obtain ⟨k', v'⟩ := p
      simp only [List.map_cons, List.mem_cons, not_or] at h
      have hk : ¬ k' = k := fun hh => h.1 hh.symm
      simp [mapGet, hk, ih h.2]

theorem mapDelete_of_none (l : List (Nat × Session)) (k : Nat)
    (h : mapGet l k = none) : mapDelete l k = l := by
  induction l with
  | nil => rfl
  | cons p rest ih =>
      obtain ⟨k', v'⟩ := p
      by_cases hk : k' = k
      · subst hk
        simp [mapGet] at h
      · simp only [mapGet, if_neg hk] at h
        simp [mapDelete, hk, ih h]

theorem mapGet_mapDelete_ne (l : List (Nat × Session)) (k j : Nat) (h : j ≠ k) :
    mapGet (mapDelete l k) j = mapGet l j := by
  induction l with
  | nil => rfl
  | cons p rest ih =>
      obtain ⟨k', v'⟩ := p
      by_cases hk : k' = k
      · subst hk
        simp [mapDelete, mapGet, Ne.symm h]
      · simp [mapDelete, mapGet, hk, ih]

theorem mapGet_mapDelete_self (l : List (Nat × Session)) (k : Nat)
    (h : (l.map Prod.fst).Nodup) : mapGet (mapDelete l k) k = none := by
  induction l with
  | nil => rfl
  | cons p rest ih =>
      obtain ⟨k', v'⟩ := p
      simp only [List.map_cons, List.nodup_cons] at h
      by_cases hk : k' = k
      · subst hk
        simpa [mapDelete] using mapGet_eq_none_of_not_mem rest k' h.1
      · simp [mapDelete, mapGet, hk, ih h.2]

theorem mem_keys_mapSet (l : List (Nat × Session)) (k : Nat) (v : Session)
    (j : Nat) (h : j ∈ (mapSet l k v).map Prod.fst) :
    j = k ∨ j ∈ l.map Prod.fst := by
  induction l with
  | nil => simpa [mapSet] using h
  | cons p rest ih =>
      obtain ⟨k', v'⟩ := p
      by_cases hk : k' = k
      · subst hk
        simpa [mapSet] using h
      · simp only [mapSet, if_neg hk, List.map_cons, List.mem_cons] at h
        rcases h with h | h
        · exact Or.inr (by simp [h])
        · rcases ih h with h | h
          · exact Or.inl h
          · exact Or.inr (by simp [h])

theorem nodup_keys_mapSet (l : List (Nat × Session)) (k : Nat) (v : Session)
    (h : (l.map Prod.fst).Nodup) : ((mapSet l k v).map Prod.fst).Nodup := by
  induction l with
  | nil => simp [mapSet]
  | cons p rest ih =>
      obtain ⟨k', v'⟩ := p
      simp only [List.map_cons, List.nodup_cons] at h
      by_cases hk : k' = k
      · subst hk
        have hset : mapSet ((k', v') :: rest) k' v = (k', v) :: rest := by
          simp [mapSet]
        rw [hset]
        simp only [List.map_cons, List.nodup_cons]
        exact h
      · simp only [mapSet, if_neg hk, List.map_cons, List.nodup_cons]
        refine ⟨?_, ih h.2⟩
        intro hmem
        rcases mem_keys_mapSet rest k v k' hmem with h3 | h3
        · exact hk h3
        · exact h.1 h3

theorem keys_mapDelete_sublist (l : List (Nat × Session)) (k : Nat) :
    ((mapDelete l k).map Prod.fst).Sublist (l.map Prod.fst) := by
  induction l with
  | nil => simp [mapDelete]
  | cons p rest ih =>
      obtain ⟨k', v'⟩ := p
      by_cases hk : k' = k
      · subst hk
        have hdel : mapDelete ((k', v') :: rest) k' = rest := by
          simp [mapDelete]
        rw [hdel, List.map_cons]
        exact List.sublist_cons_self _ _
      · simpa [mapDelete, hk] using ih.cons₂ k'

theorem nodup_keys_mapDelete (l : List (Nat × Session)) (k : Nat)
    (h : (l.map Prod.fst).Nodup) : ((mapDelete l k).map Prod.fst).Nodup :=
  List.Nodup.sublist (keys_mapDelete_sublist l k) h

theorem filter_keys_nil_of_not_mem (l : List (Nat × Session)) (k : Nat)
    (h : k ∉ l.map Prod.fst) : l.filter (fun p => p.1 == k) = [] := by
  induction l with
  | nil => rfl
  | cons p rest ih =>
      obtain ⟨k', v'⟩ := p
      simp only [List.map_cons, List.mem_cons, not_or] at h
      have hk : (k' == k) = false := by
        simpa using fun hh : k' = k => h.1 hh.symm
      simp [List.filter_cons, hk, ih h.2]

theorem count_keys_le_one (l : List (Nat × Session))
    (h : (l.map Prod.fst).Nodup) (i : Nat) :
    (l.filter (fun p => p.1 == i)).length ≤ 1 := by
  induction l with
  | nil => simp
  | cons p rest ih =>
      obtain ⟨k, v⟩ := p
      simp only [List.map_cons, List.nodup_cons] at h
      by_cases hk : k = i
      · subst hk
        rw [List.filter_cons]
        simp only [beq_self_eq_true, if_pos]
        simp [filter_keys_nil_of_not_mem rest k h.1]
      · have hkb : ((k, v).1 == i) = false := by simpa using hk
        simp [List.filter_cons, hkb, ih h.2]

/-! ## Status store lemmas -/

theorem dbSet_self (db : Nat → StreamRow) (i : Nat) (row : StreamRow) :
    dbSet db i row i = row := by
  simp [dbSet]

theorem dbSet_ne (db : Nat → StreamRow) (i : Nat) (row : StreamRow)
    (j : Nat) (h : j ≠ i) : dbSet db i row j = db j := by
  simp [dbSet, h]

/-! ## Unfolding lemmas for the supervisor operations -/

theorem startStream_of_error (st : WorkerState) (streamId : Nat) (videoPath : String)
    (platforms : List Platform) (spawnErr : Option String) (msg : String)
    (h : createFFmpegCommand videoPath platforms = Except.error msg) :
    startStream st streamId videoPath platforms spawnErr =
      ({ st with
          openLogs := generateLogFilename streamId st.now :: st.openLogs,
          db := dbSet st.db streamId
            { st.db streamId with status := StreamStatus.failed, error := some msg } },
        false) := by
  unfold startStream
  rw [h]

theorem startStream_of_spawn_error (st : WorkerState) (streamId : Nat)
    (videoPath : String) (platforms : List Platform) (msg c : String)
    (h : createFFmpegCommand videoPath platforms = Except.ok c) :
    startStream st streamId videoPath platforms (some msg) =
      ({ st with
          openLogs := generateLogFilename streamId st.now :: st.openLogs,
          db := dbSet st.db streamId
            { st.db streamId with status := StreamStatus.failed, error := some msg } },
        false) := by
  unfold startStream
  rw [h]

theorem startStream_of_ok (st : WorkerState) (streamId : Nat) (videoPath : String)
    (platforms : List Platform) (c : String)
    (h : createFFmpegCommand videoPath platforms = Except.ok c) :
    startStream st streamId videoPath platforms none =
      ({ st with
          openLogs := generateLogFilename streamId st.now :: st.openLogs,
          procs := st.procs ++ [⟨st.nextPid, streamId, true⟩],
          nextPid := st.nextPid + 1,
          activeStreams := mapSet st.activeStreams streamId
            ⟨st.nextPid, generateLogFilename streamId st.now, st.now, platforms⟩,
          db := dbSet st.db streamId
            { st.db streamId with
                status := StreamStatus.active,
                started_at := some st.now,
                log_file := some (generateLogFilename streamId st.now) } },
        true) := by
  unfold startStream
  rw [h]

theorem stopStream_of_none (st : WorkerState) (streamId : Nat)
    (h : mapGet st.activeStreams streamId = none) :
    stopStream st streamId = (st, false) := by
  unfold stopStream
  rw [h]

theorem stopStream_of_some (st : WorkerState) (streamId : Nat) (sess : Session)
    (h : mapGet st.activeStreams streamId = some sess) :
    stopStream st streamId =
      ({ st with
          procs := killProc st.procs sess.pid,
          openLogs := st.openLogs.erase sess.logFilename,
          db := dbSet st.db streamId
            { st.db streamId with
                status := StreamStatus.stopped, ended_at := some st.now },
          activeStreams := mapDelete st.activeStreams streamId },
        true) := by
  unfold stopStream
  rw [h]

theorem stopStream_activeStreams_eq (st : WorkerState) (streamId : Nat) :
    ((stopStream st streamId).1).activeStreams = mapDelete st.activeStreams streamId := by
  cases hm : mapGet st.activeStreams streamId with
  | none =>
      rw [stopStream_of_none st streamId hm]
      exact (mapDelete_of_none st.activeStreams streamId hm).symm
  | some sess =>
      rw [stopStream_of_some st streamId sess hm]

theorem stopStream_db_ne (st : WorkerState) (streamId j : Nat) (h : j ≠ streamId) :
    ((stopStream st streamId).1).db j = st.db j := by
  cases hm : mapGet st.activeStreams streamId with
  | none => rw [stopStream_of_none st streamId hm]
  | some sess =>
      rw [stopStream_of_some st streamId sess hm]
      exact dbSet_ne _ _ _ _ h

/-! ## Registry-uniqueness preservation -/

theorem registryUnique_startStream (st : WorkerState) (streamId : Nat)
    (videoPath : String) (platforms : List Platform) (spawnErr : Option String)
    (h : registryUnique st) : registryUnique (startStream st streamId videoPath platforms spawnErr).1 := by
  cases hc : createFFmpegCommand videoPath platforms with
  | error msg =>
      rw [startStream_of_error st streamId videoPath platforms spawnErr msg hc]
      exact h
  | ok c =>
      cases spawnErr with
      | some msg =>
          rw [startStream_of_spawn_error st streamId videoPath platforms msg c hc]
          exact h
      | none =>
          rw [startStream_of_ok st streamId videoPath platforms c hc]
          exact nodup_keys_mapSet st.activeStreams streamId _ h

theorem registryUnique_stopStream (st : WorkerState) (streamId : Nat)
    (h : registryUnique st) : registryUnique (stopStream st streamId).1 := by
  unfold registryUnique
  rw [stopStream_activeStreams_eq]
  exact nodup_keys_mapDelete st.activeStreams streamId h

theorem registryUnique_onExit (st : WorkerState) (streamId pid : Nat)
    (logFilename : String) (code : Option Int) (h : registryUnique st) :
    registryUnique (onExit st streamId pid logFilename code) := by
  unfold registryUnique onExit
  exact nodup_keys_mapDelete st.activeStreams streamId h

theorem registryUnique_processOne (se : Nat → Option String) (fe : String → Bool)
    (st : WorkerState) (row : ScheduledRow) (h : registryUnique st) :
    registryUnique (processOne se fe st row) := by
  unfold processOne
  by_cases hf : fe (uploadDir ++ "/" ++ row.video_path) = true
  · rw [if_pos hf]
    exact registryUnique_startStream st row.id _ row.platforms (se row.id) h
  · rw [if_neg hf]
    exact h

theorem registryUnique_foldl (se : Nat → Option String) (fe : String → Bool)
    (rows : List ScheduledRow) :
    ∀ st : WorkerState, registryUnique st →
      registryUnique (rows.foldl (processOne se fe) st) := by
  induction rows with
  | nil => intro st h; exact h
  | cons row rest ih =>
      intro st h
      exact ih (processOne se fe st row) (registryUnique_processOne se fe st row h)

theorem registryUnique_shutdownLoop (ids : List Nat) :
    ∀ st : WorkerState, registryUnique st →
      registryUnique (shutdownLoop st ids).1 := by
  induction ids with
  | nil => intro st h; exact h
  | cons i rest ih =>
      intro st h
      exact ih (stopStream st i).1 (registryUnique_stopStream st i h)

/-! ## Shutdown-loop lemmas -/

theorem shutdownLoop_trace (ids : List Nat) :
    ∀ st : WorkerState, (shutdownLoop st ids).2 = ids.map ShutdownEvent.stopDone := by
  induction ids with
  | nil => intro st; rfl
  | cons i rest ih =>
      intro st
      simp [shutdownLoop, ih]

theorem shutdownLoop_db_frame (ids : List Nat) :
    ∀ (st : WorkerState) (j : Nat), j ∉ ids →
      ((shutdownLoop st ids).1).db j = st.db j := by
  induction ids with
  | nil => intro st j _; rfl
  | cons i rest ih =>
      intro st j hj
      simp only [List.mem_cons, not_or] at hj
      calc ((shutdownLoop st (i :: rest)).1).db j
          = ((shutdownLoop (stopStream st i).1 rest).1).db j := rfl
        _ = ((stopStream st i).1).db j := ih (stopStream st i).1 j hj.2
        _ = st.db j := stopStream_db_ne st i j hj.1

theorem shutdownLoop_stops_all (l : List (Nat × Session)) :
    ∀ st : WorkerState, st.activeStreams = l → (l.map Prod.fst).Nodup →
      ((shutdownLoop st (l.map Prod.fst)).1.activeStreams = [] ∧
        ∀ i ∈ l.map Prod.fst,
          ((shutdownLoop st (l.map Prod.fst)).1.db i).status = StreamStatus.stopped) := by
  induction l with
  | nil => intro st hst _; exact ⟨hst, by simp⟩
  | cons p rest ih =>
      intro st hst hnd
      obtain ⟨k, s⟩ := p
      simp only [List.map_cons, List.nodup_cons] at hnd
      have hget : mapGet st.activeStreams k = some s := by
        rw [hst]
        simp [mapGet]
      have hstop := stopStream_of_some st k s hget
      have hst' : ((stopStream st k).1).activeStreams = rest := by
        rw [hstop, hst]
        simp [mapDelete]
      have hdbk : ((stopStream st k).1).db k =
          { st.db k with status := StreamStatus.stopped, ended_at := some st.now } := by
        rw [hstop]
        exact dbSet_self _ _ _
      have hrec := ih (stopStream st k).1 hst' hnd.2
      refine ⟨hrec.1, ?_⟩
      intro i hi
      simp only [List.map_cons, List.mem_cons] at hi
      show ((shutdownLoop (stopStream st k).1 (rest.map Prod.fst)).1.db i).status =
        StreamStatus.stopped
      rcases hi with hi | hi
      · subst hi
        rw [shutdownLoop_db_frame (rest.map Prod.fst) (stopStream st i).1 i hnd.1, hdbk]
      · exact hrec.2 i hi

/-- Claim C3: a platform list resolving to exactly one supported output
produces the single-output invocation (video copied with `-c:v copy`, audio
re-encoded to AAC, `-f flv` container); a list resolving to two or more
outputs produces one tee-style invocation whose payload has exactly one
`[f=flv]`-tagged leg per resolved platform output. -/
theorem createFFmpegCommand_single_and_tee (vp : String) (ps : List Platform) :
    (∀ o, resolvedOutputs ps = [o] →
      createFFmpegCommand vp ps =
        Except.ok ("-re -i \"" ++ vp ++ "\" -c:v copy -c:a aac -f flv \"" ++ o ++ "\"")) ∧
    (∀ o1 o2 rest, resolvedOutputs ps = o1 :: o2 :: rest →
      createFFmpegCommand vp ps =
        Except.ok ("-re -i \"" ++ vp ++ "\" -c:v copy -c:a aac -f tee \"" ++
          String.intercalate "|"
            ((resolvedOutputs ps).map (fun o => "[f=flv]" ++ o)) ++ "\"") ∧
      ((resolvedOutputs ps).map (fun o => "[f=flv]" ++ o)).length =
        (resolvedOutputs ps).length) := by
  constructor
  · intro o h
    unfold createFFmpegCommand
    rw [h]
  · intro o1 o2 rest h
    refine ⟨?_, by simp⟩
    unfold createFFmpegCommand
    rw [h]

/-- Witness for C3 at concrete inputs: one rtmp platform gives the single
`flv` command; two rtmp platforms and one custom URL give the tee command
with three legs. -/
theorem createFFmpegCommand_single_and_tee_witness :
    resolvedOutputs [Platform.rtmp "a.live" "k1"] = ["rtmp://a.live/k1"] ∧
    createFFmpegCommand "v.mp4" [Platform.rtmp "a.live" "k1"] =
      Except.ok "-re -i \"v.mp4\" -c:v copy -c:a aac -f flv \"rtmp://a.live/k1\"" ∧
    resolvedOutputs
        [Platform.rtmp "a.live" "k1", Platform.rtmp "b.live" "k2",
          Platform.custom "https://c.live/x"] =
      ["rtmp://a.live/k1", "rtmp://b.live/k2", "https://c.live/x"] ∧
    createFFmpegCommand "v.mp4"
        [Platform.rtmp "a.live" "k1", Platform.rtmp "b.live" "k2",
          Platform.custom "https://c.live/x"] =
      Except.ok ("-re -i \"v.mp4\" -c:v copy -c:a aac -f tee " ++
        "\"[f=flv]rtmp://a.live/k1|[f=flv]rtmp://b.live/k2|[f=flv]https://c.live/x\"") := by
  refine ⟨by decide, ?_, by decide, ?_⟩
  · exact (createFFmpegCommand_single_and_tee "v.mp4"
      [Platform.rtmp "a.live" "k1"]).1 "rtmp://a.live/k1" (by decide)
  · have h := (createFFmpegCommand_single_and_tee "v.mp4"
      [Platform.rtmp "a.live" "k1", Platform.rtmp "b.live" "k2",
        Platform.custom "https://c.live/x"]).2
      "rtmp://a.live/k1" "rtmp://b.live/k2" ["https://c.live/x"] (by decide)
    refine h.1.trans (congrArg Except.ok ?_)
    decide

/-- Claim C4: the Command Builder filters unsupported platform types before
counting (filtering them away does not change the resolved outputs), and
whenever the resolved output list is empty — in particular for the empty
input list — it raises the `InvalidConfiguration` error
(`'No valid output platforms provided'`) instead of returning an invocation. -/
theorem createFFmpegCommand_empty_raises (vp : String) (ps : List Platform) :
    resolvedOutputs (ps.filter supportedPlatform) = resolvedOutputs ps ∧
    (resolvedOutputs ps = [] →
      createFFmpegCommand vp ps = Except.error "No valid output platforms provided") ∧
    createFFmpegCommand vp [] = Except.error "No valid output platforms provided" := by
  refine ⟨resolvedOutputs_filter_supported ps, ?_, rfl⟩
  intro h
  unfold createFFmpegCommand
  rw [h]

/-- Witness for C4 at a concrete input: a list holding only an unsupported
platform and a custom platform with an empty URL resolves to no outputs and
the builder raises the error. -/
theorem createFFmpegCommand_empty_raises_witness :
    resolvedOutputs [Platform.unsupported, Platform.custom ""] = [] ∧
    createFFmpegCommand "v.mp4" [Platform.unsupported, Platform.custom ""] =
      Except.error "No valid output platforms provided" := by
  refine ⟨by decide, ?_⟩
  exact (createFFmpegCommand_empty_raises "v.mp4"
    [Platform.unsupported, Platform.custom ""]).2.1 (by decide)

/-- Claim C10: the output filtering is asymmetric about empty destinations.
A `custom` platform whose `url` is the empty string is dropped by
`filter(Boolean)`, while an `rtmp` platform is always kept — its template
string `rtmp://server/streamKey` is never falsy — and with empty server and
stream key it still contributes the output URL `rtmp:///`. -/
theorem resolvedOutputs_empty_destination_asymmetry
    (s k : String) (ps : List Platform) :
    resolvedOutputs (Platform.custom "" :: ps) = resolvedOutputs ps ∧
    resolvedOutputs (Platform.rtmp s k :: ps) =
      ("rtmp://" ++ s ++ "/" ++ k) :: resolvedOutputs ps ∧
    resolvedOutputs (Platform.rtmp "" "" :: ps) = "rtmp:///" :: resolvedOutputs ps := by
  refine ⟨resolvedOutputs_custom_empty_cons ps, resolvedOutputs_rtmp_cons s k ps, ?_⟩
  have h := resolvedOutputs_rtmp_cons "" "" ps
  simpa using h

/-! ## Dedup and the double-start race (claims C1 and C2) -/

/-- Counterexample to claim C1 as stated: starting from a fresh worker, job
1 is started once (an `ActiveSession` for id 1 exists), yet a second start
request for id 1 is not a no-op — it returns success (`true`, not an
"already running" refusal) and spawns a second relay process, so two rapid
start requests for the same unstarted job yield two spawned processes. -/
theorem startStream_double_start_counterexample :
    (mapGet st1.activeStreams 1).isSome = true ∧
    doubleStart.2 = true ∧
    doubleStart.1.procs = [⟨0, 1, true⟩, ⟨1, 1, true⟩] := by
  refine ⟨rfl, rfl, rfl⟩

/-- Claim C1 (amended): `startStream` performs no already-running check.
For every state in which an `ActiveSession` for the job id already exists
and the command builds, a further start request for that id returns success,
appends a freshly spawned process, and overwrites the registry entry with a
new session — it is not a no-op and produces no "already running" response. -/
theorem startStream_no_already_running_check (st : WorkerState) (streamId : Nat)
    (videoPath : String) (platforms : List Platform) (sess : Session) (c : String)
    (_hs : mapGet st.activeStreams streamId = some sess)
    (hc : createFFmpegCommand videoPath platforms = Except.ok c) :
    (startStream st streamId videoPath platforms none).2 = true ∧
    (startStream st streamId videoPath platforms none).1.procs =
      st.procs ++ [⟨st.nextPid, streamId, true⟩] ∧
    mapGet (startStream st streamId videoPath platforms none).1.activeStreams streamId =
      some ⟨st.nextPid, generateLogFilename streamId st.now, st.now, platforms⟩ := by
  rw [startStream_of_ok st streamId videoPath platforms c hc]
  exact ⟨rfl, rfl, mapGet_mapSet_self st.activeStreams streamId _⟩

/-- Witness for the amended C1: after one start of job 1, a second start of
job 1 succeeds, spawns process 1 and replaces the registry entry. -/
theorem startStream_no_already_running_check_witness :
    mapGet st1.activeStreams 1 = some ⟨0, generateLogFilename 1 0, 0, demoPlatforms⟩ ∧
    createFFmpegCommand demoPath demoPlatforms = Except.ok demoCmd ∧
    ((startStream st1 1 demoPath demoPlatforms none).2 = true ∧
      (startStream st1 1 demoPath demoPlatforms none).1.procs =
        st1.procs ++ [⟨st1.nextPid, 1, true⟩] ∧
      mapGet (startStream st1 1 demoPath demoPlatforms none).1.activeStreams 1 =
        some ⟨st1.nextPid, generateLogFilename 1 st1.now, st1.now, demoPlatforms⟩) :=
  ⟨rfl, rfl,
    startStream_no_already_running_check st1 1 demoPath demoPlatforms
      ⟨0, generateLogFilename 1 0, 0, demoPlatforms⟩ demoCmd rfl rfl⟩

/-- Counterexample to claim C2 as stated: the state reached from a fresh
worker by two start requests for job 1 keeps exactly one `ActiveSession`
for id 1 (the `Map` is keyed on the id) but holds two live relay processes
for id 1, refuting "at most one live relay process per job id at any
instant". -/
theorem live_process_per_id_counterexample :
    registryUnique initState ∧
    sessionCount doubleStart.1 1 = 1 ∧
    liveProcCount doubleStart.1 1 = 2 := by
  refine ⟨?_, rfl, rfl⟩
  show (initState.activeStreams.map Prod.fst).Nodup
  decide

/-- Claim C2 (amended): at most one `ActiveSession` exists per job id —
the registry keys stay pairwise distinct, so each id has at most one
session — and this registry uniqueness is preserved by every operation
(start, stop, exit reaction, a scheduler tick, shutdown).  The analogous
bound for live relay processes does not hold (see the counterexample). -/
theorem registry_at_most_one_session_per_id (st : WorkerState)
    (streamId pid : Nat) (videoPath logFilename : String)
    (platforms : List Platform) (spawnErr : Option String) (code : Option Int)
    (rows : List ScheduledRow) (se : Nat → Option String) (fe : String → Bool)
    (i : Nat) (h : registryUnique st) :
    sessionCount st i ≤ 1 ∧
    registryUnique (startStream st streamId videoPath platforms spawnErr).1 ∧
    registryUnique (stopStream st streamId).1 ∧
    registryUnique (onExit st streamId pid logFilename code) ∧
    registryUnique (processScheduledStreams st rows se fe) ∧
    registryUnique (onSigterm st).1 :=
  ⟨count_keys_le_one st.activeStreams h i,
    registryUnique_startStream st streamId videoPath platforms spawnErr h,
    registryUnique_stopStream st streamId h,
    registryUnique_onExit st streamId pid logFilename code h,
    registryUnique_foldl se fe rows st h,
    registryUnique_shutdownLoop (st.activeStreams.map Prod.fst) st h⟩

/-- Witness for the amended C2 on the two-job worker. -/
theorem registry_at_most_one_session_per_id_witness :
    registryUnique twoActive ∧
    (sessionCount twoActive 1 ≤ 1 ∧
      registryUnique (startStream twoActive 1 demoPath demoPlatforms none).1 ∧
      registryUnique (stopStream twoActive 1).1 ∧
      registryUnique (onExit twoActive 1 0 "a.log" (some 0)) ∧
      registryUnique
        (processScheduledStreams twoActive [okRow] (fun _ => none) (fun _ => false)) ∧
      registryUnique (onSigterm twoActive).1) :=
  ⟨by show (twoActive.activeStreams.map Prod.fst).Nodup
      decide,
    registry_at_most_one_session_per_id twoActive 1 0 demoPath "a.log"
      demoPlatforms none (some 0) [okRow] (fun _ => none) (fun _ => false) 1
      (by show (twoActive.activeStreams.map Prod.fst).Nodup
          decide)⟩

/-! ## Failure paths of `startStream` (claim C5) -/

/-- Claim C5: when an exception is raised during command building or during
process spawning, `startStream` persists status `'failed'` together with the
exception's error text, returns failure, and registers nothing: the registry
and the process list are exactly as before the call. -/
theorem startStream_exception_persists_failed (st : WorkerState) (streamId : Nat)
    (videoPath : String) (platforms : List Platform) (msg c : String) :
    (createFFmpegCommand videoPath platforms = Except.error msg →
      (startStream st streamId videoPath platforms none).2 = false ∧
      ((startStream st streamId videoPath platforms none).1.db streamId).status =
        StreamStatus.failed ∧
      ((startStream st streamId videoPath platforms none).1.db streamId).error = some msg ∧
      (startStream st streamId videoPath platforms none).1.activeStreams =
        st.activeStreams ∧
      (startStream st streamId videoPath platforms none).1.procs = st.procs) ∧
    (createFFmpegCommand videoPath platforms = Except.ok c →
      (startStream st streamId videoPath platforms (some msg)).2 = false ∧
      ((startStream st streamId videoPath platforms (some msg)).1.db streamId).status =
        StreamStatus.failed ∧
      ((startStream st streamId videoPath platforms (some msg)).1.db streamId).error =
        some msg ∧
      (startStream st streamId videoPath platforms (some msg)).1.activeStreams =
        st.activeStreams ∧
      (startStream st streamId videoPath platforms (some msg)).1.procs = st.procs) := by
  constructor
  · intro h
    rw [startStream_of_error st streamId videoPath platforms none msg h]
    refine ⟨rfl, ?_, ?_, rfl, rfl⟩ <;> simp [dbSet]
  · intro h
    rw [startStream_of_spawn_error st streamId videoPath platforms msg c h]
    refine ⟨rfl, ?_, ?_, rfl, rfl⟩ <;> simp [dbSet]

/-- Witness for C5: a build failure (no resolvable platforms) and a spawn
failure both persist `'failed'` with the error text and register nothing. -/
theorem startStream_exception_persists_failed_witness :
    createFFmpegCommand demoPath ([] : List Platform) =
      Except.error "No valid output platforms provided" ∧
    ((startStream initState 2 demoPath [] none).2 = false ∧
      ((startStream initState 2 demoPath [] none).1.db 2).status = StreamStatus.failed ∧
      ((startStream initState 2 demoPath [] none).1.db 2).error =
        some "No valid output platforms provided" ∧
      (startStream initState 2 demoPath [] none).1.activeStreams =
        initState.activeStreams ∧
      (startStream initState 2 demoPath [] none).1.procs = initState.procs) ∧
    createFFmpegCommand demoPath demoPlatforms = Except.ok demoCmd ∧
    ((startStream initState 3 demoPath demoPlatforms (some "spawn ENOENT")).2 = false ∧
      ((startStream initState 3 demoPath demoPlatforms (some "spawn ENOENT")).1.db 3).status =
        StreamStatus.failed ∧
      ((startStream initState 3 demoPath demoPlatforms (some "spawn ENOENT")).1.db 3).error =
        some "spawn ENOENT" ∧
      (startStream initState 3 demoPath demoPlatforms (some "spawn ENOENT")).1.activeStreams =
        initState.activeStreams ∧
      (startStream initState 3 demoPath demoPlatforms (some "spawn ENOENT")).1.procs =
        initState.procs) :=
  ⟨rfl,
    (startStream_exception_persists_failed initState 2 demoPath []
      "No valid output platforms provided" demoCmd).1 rfl,
    rfl,
    (startStream_exception_persists_failed initState 3 demoPath demoPlatforms
      "spawn ENOENT" demoCmd).2 rfl⟩

/-! ## `stopStream` (claim C6) -/

/-- Claim C6: with no `ActiveSession`, `stopStream` returns the "not
running" failure leaving the whole state (in particular the status store)
untouched; with a session it marks the session's process terminated by the
graceful signal, closes the log sink, persists `'stopped'` with an end
time, removes the registry entry, and an immediate second stop observes
"not running" — stop is idempotent. -/
theorem stopStream_spec (st : WorkerState) (streamId : Nat) (sess : Session)
    (hu : registryUnique st) :
    (mapGet st.activeStreams streamId = none → stopStream st streamId = (st, false)) ∧
    (mapGet st.activeStreams streamId = some sess →
      (stopStream st streamId).2 = true ∧
      (∀ p ∈ (stopStream st streamId).1.procs, p.pid = sess.pid → p.alive = false) ∧
      (stopStream st streamId).1.openLogs = st.openLogs.erase sess.logFilename ∧
      ((stopStream st streamId).1.db streamId).status = StreamStatus.stopped ∧
      ((stopStream st streamId).1.db streamId).ended_at = some st.now ∧
      mapGet (stopStream st streamId).1.activeStreams streamId = none ∧
      stopStream (stopStream st streamId).1 streamId =
        ((stopStream st streamId).1, false)) := by
  constructor
  · exact stopStream_of_none st streamId
  · intro hm
    have hrw := stopStream_of_some st streamId sess hm
    have hnone : mapGet (stopStream st streamId).1.activeStreams streamId = none := by
      rw [stopStream_activeStreams_eq]
      exact mapGet_mapDelete_self st.activeStreams streamId hu
    refine ⟨by rw [hrw], ?_, by rw [hrw], ?_, ?_, hnone,
      stopStream_of_none (stopStream st streamId).1 streamId hnone⟩
    · rw [hrw]
      intro p hp hpid
      simp only [killProc, List.mem_map] at hp
      obtain ⟨q, hq, rfl⟩ := hp
      by_cases hqp : q.pid = sess.pid
      · simp [hqp]
      · rw [if_neg hqp] at hpid ⊢
        exact absurd hpid hqp
    · rw [hrw]
      simp [dbSet]
    · rw [hrw]
      simp [dbSet]

/-- Witness for C6 on the two-job worker: stopping job 1 succeeds, persists
`'stopped'` with the end time, empties its registry slot, and a second stop
returns "not running" without changes. -/
theorem stopStream_spec_witness :
    registryUnique twoActive ∧
    mapGet twoActive.activeStreams 1 = some sessA ∧
    ((stopStream twoActive 1).2 = true ∧
      ((stopStream twoActive 1).1.db 1).status = StreamStatus.stopped ∧
      ((stopStream twoActive 1).1.db 1).ended_at = some twoActive.now ∧
      mapGet (stopStream twoActive 1).1.activeStreams 1 = none ∧
      stopStream (stopStream twoActive 1).1 1 = ((stopStream twoActive 1).1, false)) := by
  have hu : registryUnique twoActive := by
    show (twoActive.activeStreams.map Prod.fst).Nodup
    decide
  have h := (stopStream_spec twoActive 1 sessA hu).2 rfl
  exact ⟨hu, rfl, h.1, h.2.2.2.1, h.2.2.2.2.1, h.2.2.2.2.2.1, h.2.2.2.2.2.2⟩

/-! ## The exit reaction (claim C7) -/

/-- Claim C7: when a supervised process exits, the handler closes the
captured log sink, persists `'completed'` exactly for a clean exit code 0
and `'failed'` otherwise — in particular for exit by signal, where the code
is absent — persists an end time, and removes the job's registry entry,
where removal of an already-absent entry is a no-op (so the removal happens
at most once even when racing a concurrent stop). -/
theorem onExit_spec (st : WorkerState) (streamId pid : Nat) (logFilename : String)
    (code : Option Int) (hu : registryUnique st) :
    (onExit st streamId pid logFilename code).openLogs = st.openLogs.erase logFilename ∧
    ((onExit st streamId pid logFilename code).db streamId).status =
      (if code = some 0 then StreamStatus.completed else StreamStatus.failed) ∧
    (code = none →
      ((onExit st streamId pid logFilename code).db streamId).status =
        StreamStatus.failed) ∧
    ((onExit st streamId pid logFilename code).db streamId).ended_at = some st.now ∧
    mapGet (onExit st streamId pid logFilename code).activeStreams streamId = none ∧
    (mapGet st.activeStreams streamId = none →
      (onExit st streamId pid logFilename code).activeStreams = st.activeStreams) := by
  refine ⟨rfl, by simp [onExit, dbSet], ?_, by simp [onExit, dbSet], ?_, ?_⟩
  · intro h
    subst h
    simp [onExit, dbSet]
  · show mapGet (mapDelete st.activeStreams streamId) streamId = none
    exact mapGet_mapDelete_self st.activeStreams streamId hu
  · intro h
    show mapDelete st.activeStreams streamId = st.activeStreams
    exact mapDelete_of_none st.activeStreams streamId h

/-- Witness for C7 on the two-job worker: job 2's process ends by signal
(absent exit code) — status `'failed'`, end time recorded, registry entry
gone; and the handler run against an id with no entry leaves the registry
unchanged. -/
theorem onExit_spec_witness :
    registryUnique twoActive ∧
    ((onExit twoActive 2 1 "b.log" none).openLogs = twoActive.openLogs.erase "b.log" ∧
      ((onExit twoActive 2 1 "b.log" none).db 2).status = StreamStatus.failed ∧
      ((onExit twoActive 2 1 "b.log" none).db 2).ended_at = some twoActive.now ∧
      mapGet (onExit twoActive 2 1 "b.log" none).activeStreams 2 = none) ∧
    (onExit twoActive 3 9 "c.log" none).activeStreams = twoActive.activeStreams := by
  have hu : registryUnique twoActive := by
    show (twoActive.activeStreams.map Prod.fst).Nodup
    decide
  have h2 := onExit_spec twoActive 2 1 "b.log" none hu
  have h3 := onExit_spec twoActive 3 9 "c.log" none hu
  exact ⟨hu, ⟨h2.1, h2.2.2.1 rfl, h2.2.2.2.1, h2.2.2.2.2.1⟩, h3.2.2.2.2.2 rfl⟩

/-! ## The scheduler tick (claim C8) -/

/-- Counterexample to claim C8 as stated: for a due job whose source file
is missing, the persisted error is the fixed string
`'Video file not found'`; the missing file's name (`gone.mp4`) appears
nowhere in the persisted error text, so the error does not name the
missing file. -/
theorem scheduler_missing_file_error_counterexample :
    (tickMissing.db 7).status = StreamStatus.failed ∧
    (tickMissing.db 7).error = some "Video file not found" ∧
    ¬ ("gone.mp4".toList <:+: "Video file not found".toList) := by
  refine ⟨rfl, rfl, by decide⟩

/-- Claim C8 (amended): on a scheduler tick, a due job whose source file is
missing gets status `'failed'` persisted with the fixed error text
`'Video file not found'` (which does not include the file path) before any
start is attempted — no process is spawned and no session is registered for
it; a due job whose dispatch fails (the spawn throwing) likewise gets
`'failed'` persisted with the exception text, spawning nothing and
registering nothing; and the tick continues with the remaining due rows
unconditionally — however a row's handling ends (missing file, failed
dispatch or success), the rest of the tick is still processed. -/
theorem scheduler_missing_file_spec (st : WorkerState)
    (se : Nat → Option String) (fe : String → Bool)
    (row : ScheduledRow) (rest : List ScheduledRow) (msg c : String) :
    (fe (uploadDir ++ "/" ++ row.video_path) = false →
      ((processOne se fe st row).db row.id).status = StreamStatus.failed ∧
      ((processOne se fe st row).db row.id).error = some "Video file not found" ∧
      (processOne se fe st row).procs = st.procs ∧
      (processOne se fe st row).activeStreams = st.activeStreams) ∧
    (fe (uploadDir ++ "/" ++ row.video_path) = true →
      createFFmpegCommand (uploadDir ++ "/" ++ row.video_path) row.platforms =
        Except.ok c →
      se row.id = some msg →
      ((processOne se fe st row).db row.id).status = StreamStatus.failed ∧
      ((processOne se fe st row).db row.id).error = some msg ∧
      (processOne se fe st row).procs = st.procs ∧
      (processOne se fe st row).activeStreams = st.activeStreams) ∧
    processScheduledStreams st (row :: rest) se fe =
      processScheduledStreams (processOne se fe st row) rest se fe := by
  refine ⟨?_, ?_, rfl⟩
  · intro h
    refine ⟨?_, ?_, ?_, ?_⟩ <;> simp [processOne, h, dbSet]
  · intro hf hc hse
    have hone : processOne se fe st row =
        (startStream st row.id (uploadDir ++ "/" ++ row.video_path) row.platforms
          (se row.id)).1 := by
      simp [processOne, hf]
    rw [hone, hse,
      startStream_of_spawn_error st row.id (uploadDir ++ "/" ++ row.video_path)
        row.platforms msg c hc]
    refine ⟨?_, ?_, rfl, rfl⟩ <;> simp [dbSet]

/-- Witness for the amended C8: a tick over a missing-file row, then a row
whose spawn throws, then a good row.  The first two rows turn `'failed'`
(fixed text and exception text respectively), register nothing, and the
third row is still dispatched — its row turns `'active'` and its process is
the only one spawned. -/
theorem scheduler_missing_file_spec_witness :
    tick3fe (uploadDir ++ "/" ++ missingRow.video_path) = false ∧
    (((processOne tick3se tick3fe initState missingRow).db 7).status =
        StreamStatus.failed ∧
      ((processOne tick3se tick3fe initState missingRow).db 7).error =
        some "Video file not found" ∧
      (processOne tick3se tick3fe initState missingRow).procs = initState.procs ∧
      (processOne tick3se tick3fe initState missingRow).activeStreams =
        initState.activeStreams) ∧
    tick3fe (uploadDir ++ "/" ++ spawnFailRow.video_path) = true ∧
    createFFmpegCommand (uploadDir ++ "/" ++ spawnFailRow.video_path)
      spawnFailRow.platforms = Except.ok boomCmd ∧
    tick3se 9 = some "spawn ENOENT" ∧
    (((processOne tick3se tick3fe initState spawnFailRow).db 9).status =
        StreamStatus.failed ∧
      ((processOne tick3se tick3fe initState spawnFailRow).db 9).error =
        some "spawn ENOENT" ∧
      (processOne tick3se tick3fe initState spawnFailRow).procs = initState.procs ∧
      (processOne tick3se tick3fe initState spawnFailRow).activeStreams =
        initState.activeStreams) ∧
    processScheduledStreams initState (missingRow :: [spawnFailRow, okRow])
        tick3se tick3fe =
      processScheduledStreams (processOne tick3se tick3fe initState missingRow)
        [spawnFailRow, okRow] tick3se tick3fe ∧
    (tick3.db 7).error = some "Video file not found" ∧
    (tick3.db 9).status = StreamStatus.failed ∧
    (tick3.db 9).error = some "spawn ENOENT" ∧
    (tick3.db 8).status = StreamStatus.active ∧
    tick3.procs = [⟨0, 8, true⟩] := by
  have h1 := scheduler_missing_file_spec initState tick3se tick3fe missingRow
    [spawnFailRow, okRow] "spawn ENOENT" boomCmd
  have h2 := scheduler_missing_file_spec initState tick3se tick3fe spawnFailRow
    [okRow] "spawn ENOENT" boomCmd
  exact ⟨rfl, h1.1 rfl, rfl, rfl, rfl, h2.2.1 rfl rfl rfl, h1.2.2,
    rfl, rfl, rfl, rfl, rfl⟩

/-! ## Graceful shutdown of the engine (claim C9) -/

theorem dropLast_append_singleton (l : List ShutdownEvent) (a : ShutdownEvent) :
    (l ++ [a]).dropLast = l := by
  simp

/-- Claim C9: on a graceful termination request, every `ActiveSession`
registered at that moment receives a stop — its row reaches status
`'stopped'` and its `stopDone` event is emitted strictly before the
`engineExit` event — the registry drains to empty, and the engine exit
event is the last event of the shutdown trace, so the engine does not exit
while any stop is still in flight. -/
theorem sigterm_drains_all_sessions (st : WorkerState) (h : registryUnique st) :
    (onSigterm st).2 =
      (st.activeStreams.map Prod.fst).map ShutdownEvent.stopDone ++
        [ShutdownEvent.engineExit] ∧
    (onSigterm st).1.activeStreams = [] ∧
    (∀ i ∈ st.activeStreams.map Prod.fst,
      ((onSigterm st).1.db i).status = StreamStatus.stopped ∧
      ShutdownEvent.stopDone i ∈ (onSigterm st).2.dropLast) := by
  have hall := shutdownLoop_stops_all st.activeStreams st rfl h
  have htr : (shutdownLoop st (st.activeStreams.map Prod.fst)).2 =
      (st.activeStreams.map Prod.fst).map ShutdownEvent.stopDone :=
    shutdownLoop_trace (st.activeStreams.map Prod.fst) st
  refine ⟨?_, hall.1, ?_⟩
  · show (shutdownLoop st (st.activeStreams.map Prod.fst)).2 ++
      [ShutdownEvent.engineExit] =
        (st.activeStreams.map Prod.fst).map ShutdownEvent.stopDone ++
          [ShutdownEvent.engineExit]
    rw [htr]
  · intro i hi
    refine ⟨hall.2 i hi, ?_⟩
    show ShutdownEvent.stopDone i ∈
      ((shutdownLoop st (st.activeStreams.map Prod.fst)).2 ++
        [ShutdownEvent.engineExit]).dropLast
    rw [htr, dropLast_append_singleton]
    exact List.mem_map_of_mem ShutdownEvent.stopDone hi

/-- Witness for C9 on the two-job worker: both registered jobs are stopped
before the exit event, both rows reach `'stopped'`, and the registry is
empty when the engine exits. -/
theorem sigterm_drains_all_sessions_witness :
    registryUnique twoActive ∧
    (onSigterm twoActive).2 =
      (twoActive.activeStreams.map Prod.fst).map ShutdownEvent.stopDone ++
        [ShutdownEvent.engineExit] ∧
    (onSigterm twoActive).1.activeStreams = [] ∧
    ((onSigterm twoActive).1.db 1).status = StreamStatus.stopped ∧
    ((onSigterm twoActive).1.db 2).status = StreamStatus.stopped := by
  have hu : registryUnique twoActive := by
    show (twoActive.activeStreams.map Prod.fst).Nodup
    decide
  have h := sigterm_drains_all_sessions twoActive hu
  exact ⟨hu, h.1, h.2.1, (h.2.2 1 (by decide)).1, (h.2.2 2 (by decide)).1⟩

end StreamWorker
